import Mathlib

/-!
Shallow embedding of the "Architect-OS" browser simulation (src/App.tsx,
src/services/aiLogic.ts, src/types.ts) and proofs about its tick loop.

Coordinates are modelled as real numbers; the nondeterministic bits of the
environment (random identifiers, clock readings, random move jitter) are
supplied explicitly through a `TickEnv` record.  The single asynchronous,
fallible operation of a tick — awaiting the LLM transport — is modelled by
an `Except` value consumed at the start of the `try` block.
-/

namespace Worl

/-- Log entry categories used by the app (`types.ts` plus the `thinking`
category used by `App.tsx` for reasoning-step logs). -/
inductive LogType
  | action
  | learning
  | error
  | success
  | thinking
deriving DecidableEq, Repr

/-- A console log entry (`LogEntry` in `types.ts`). -/
structure LogEntry where
  id : String
  type : LogType
  message : String
  timestamp : Nat
deriving DecidableEq, Repr

/-- Settlement tiers of the progression state machine. -/
inductive SettlementTier
  | Outpost
  | Colony
  | Settlement
  | Citadel
deriving DecidableEq, Repr

/-- Status of a construction-plan step (`pending`/`active`/`completed`). -/
inductive StepStatus
  | pending
  | active
  | completed
deriving DecidableEq, Repr

/-- A 3-vector of real coordinates (JS `[number, number, number]`). -/
structure Vec3 where
  x : ℝ
  y : ℝ
  z : ℝ

/-- One step of a construction plan (`PlanStep` in `types.ts`, with the
`status` field used by `App.tsx` and the response schema). -/
structure PlanStep where
  label : String
  type : String
  position : Vec3
  status : StepStatus

/-- A construction plan (`ConstructionPlan` in `types.ts` / response schema). -/
structure ConstructionPlan where
  objective : String
  steps : List PlanStep
  currentStepIndex : Nat
  planId : String

/-- A placed world object (`WorldObject` in `types.ts`). -/
structure WorldObject where
  id : String
  type : String
  position : Vec3
  rotation : Vec3
  scale : Vec3
  timestamp : Nat

/-- A knowledge-base entry (`KnowledgeEntry` in `types.ts` plus the
`category` and `isHighlight` fields used by `App.tsx`).  Grounding links are
irrelevant to the verified properties and elided. -/
structure KnowledgeEntry where
  id : String
  title : String
  description : String
  category : String
  iteration : Nat
  timestamp : Nat
  isHighlight : Bool

/-- Progression counters (`ProgressionStats` in `types.ts` with the
`settlementTier` field used by `App.tsx`). -/
structure ProgressionStats where
  complexityLevel : Nat
  structuresCompleted : Nat
  totalBlocks : Nat
  unlockedBlueprints : List String
  settlementTier : SettlementTier

/-- Network status indicator. -/
inductive NetworkStatus
  | offline
  | uplink_active
  | syncing
deriving DecidableEq, Repr

/-- HUD visibility flags (`SimulationState.ui`). -/
structure UIState where
  showStats : Bool
  showKnowledge : Bool
  showLogs : Bool
  showPlanning : Bool

/-- The simulation-state container (`SimulationState` in `types.ts`). -/
structure SimulationState where
  objects : List WorldObject
  logs : List LogEntry
  knowledgeBase : List KnowledgeEntry
  currentGoal : String
  learningIteration : Nat
  networkStatus : NetworkStatus
  activePlan : Option ConstructionPlan
  isScanning : Bool
  progression : ProgressionStats
  ui : UIState

/-- The whole per-process application state: the `SimulationState` plus the
separate `useState` cells of `App` (`avatarPos`, `isProcessing`, `isAuto`,
`currentTask`, `taskProgress`). -/
structure AppState where
  sim : SimulationState
  avatarPos : Vec3
  isProcessing : Bool
  isAuto : Bool
  currentTask : String
  taskProgress : Nat

/-- Action tags of the decision service. -/
inductive ActionTag
  | PLACE
  | MOVE
  | WAIT
deriving DecidableEq, Repr

/-- The structured decision returned by the decision service
(`AIActionResponse` in `src/services/aiLogic.ts`). -/
structure AIActionResponse where
  action : ActionTag
  objectType : Option String
  position : Option Vec3
  reason : String
  reasoningSteps : List String
  learningNote : String
  knowledgeCategory : String
  taskLabel : String
  plan : Option ConstructionPlan

/-- The terrain sampler of `App.tsx`:
`Math.sin(x * 0.2) * Math.cos(z * 0.2) * 1.2`. -/
noncomputable def getTerrainHeight (x z : ℝ) : ℝ :=
  Real.sin (x * 0.2) * Real.cos (z * 0.2) * 1.2

/-- The fixed fallback response produced by the `catch` block of
`decideNextAction` in `src/services/aiLogic.ts`. -/
def fallbackResponse : AIActionResponse where
  action := ActionTag.WAIT
  objectType := none
  position := none
  reason := "Neural buffer overflow. Recalibrating spatial constraints."
  reasoningSteps := ["Buffer error", "Terrain analysis failed", "Safety protocol: Wait"]
  learningNote := "System Stability: Temporary pause required to clear fragmented spatial data."
  knowledgeCategory := "Synthesis"
  taskLabel := "Recalibrating Spatial Logic"
  plan := none

/-- `decideNextAction` of `src/services/aiLogic.ts`, with the remote LLM
call and JSON parsing modelled by an `Except` outcome: a successful
transport/parse yields the parsed response, and any thrown error is caught
and converted to the fixed `fallbackResponse`. -/
def decideNextAction (llmOutcome : Except String AIActionResponse) : AIActionResponse :=
  match llmOutcome with
  | Except.ok r => r
  | Except.error _ => fallbackResponse

/-- The goal ladder `GOAL_SEQUENCE` of `App.tsx`. -/
def GOAL_SEQUENCE : List String :=
  [ "Synthesize Geothermal Energy Core"
  , "Deploy Biospheric Life Support Mesh"
  , "Construct Neural Uplink Spire"
  , "Establish Multi-Sector Synthesis Citadel" ]

/-- Settlement tier as recomputed on every PLACE in `runSimulationStep`
(`App.tsx` lines 122-126): `Citadel` above 15, `Settlement` above 8,
`Colony` above 4, else `Outpost`. -/
def tierOfCount (newTotal : Nat) : SettlementTier :=
  if newTotal > 15 then SettlementTier.Citadel
  else if newTotal > 8 then SettlementTier.Settlement
  else if newTotal > 4 then SettlementTier.Colony
  else SettlementTier.Outpost

/-- Goal as recomputed on every PLACE (`App.tsx` lines 128-131). -/
def goalOfCount (prevGoal : String) (newTotal : Nat) : String :=
  if newTotal > 12 then GOAL_SEQUENCE.getD 3 ""
  else if newTotal > 7 then GOAL_SEQUENCE.getD 2 ""
  else if newTotal > 3 then GOAL_SEQUENCE.getD 1 ""
  else prevGoal

/-- Title derivation for knowledge entries (`App.tsx` line 134):
`decision.learningNote.split(':')[0] || "Neural Synthesis"`.  JS `split`
always yields at least one element; the fallback fires exactly when that
first element is the empty string. -/
def deriveTitle (learningNote : String) : String :=
  let head := (learningNote.splitOn ":").headD ""
  if head = "" then "Neural Synthesis" else head

/-- Overwrite the status of the step at a given index, leaving the list
unchanged when the index is out of range. -/
def setStepStatus : List PlanStep → Nat → StepStatus → List PlanStep
  | [], _, _ => []
  | st :: rest, 0, status => { st with status := status } :: rest
  | st :: rest, n + 1, status => st :: setStepStatus rest n status

/-- Plan-cursor update performed inside the PLACE `setState` of
`runSimulationStep` (`App.tsx` lines 109-120): the plan considered is
`decision.plan || prev.activePlan`; its step at the cursor is marked
`completed`; the next index is the cursor plus one for a pre-existing plan
but the cursor itself when the decision carries a brand-new plan; if the
next index is in range that step becomes `active` and the cursor moves
there, otherwise the plan is cleared.  One unfaithful corner: a plan whose
cursor is already out of range would make the JS throw a TypeError at the
`status` write of line 112 (losing the state update), while this function
clears the plan; theorems about the cursor therefore hypothesise an
in-range cursor and say nothing about that corner. -/
def advancePlan (decisionPlan prevPlan : Option ConstructionPlan) : Option ConstructionPlan :=
  match decisionPlan.orElse (fun _ => prevPlan) with
  | none => none
  | some p =>
    let steps := setStepStatus p.steps p.currentStepIndex StepStatus.completed
    let nextIdx := p.currentStepIndex + (if decisionPlan.isSome then 0 else 1)
    if nextIdx < steps.length then
      some { p with steps := setStepStatus steps nextIdx StepStatus.active
                    currentStepIndex := nextIdx }
    else none

/-- A placeholder plan step, standing in for the JS `undefined` read when a
plan cursor is out of range (`App.tsx` lines 88-89). -/
def defaultPlanStep : PlanStep where
  label := ""
  type := "modular_unit"
  position := ⟨0, 0, 0⟩
  status := StepStatus.pending

/-- Resolution of the PLACE target type and raw position (`App.tsx` lines
87-89): `decision.objectType`/`decision.position` when present, otherwise
the current step of `decision.plan || state.activePlan`, with the literal
defaults `modular_unit` and `[0,0,0]` when no plan is active.  One
unfaithful corner: a plan cursor out of range would make the JS throw a
TypeError at line 88 (caught by the loop, yielding the error log and no
placement), while this function substitutes `defaultPlanStep`; no theorem's
conclusion exercises that corner. -/
def resolveTarget (d : AIActionResponse) (prevPlan : Option ConstructionPlan) :
    String × Vec3 :=
  let nextPlan := d.plan.orElse (fun _ => prevPlan)
  let targetType := d.objectType.getD
    (match nextPlan with
     | some p => (p.steps.getD p.currentStepIndex defaultPlanStep).type
     | none => "modular_unit")
  let rawPos := d.position.getD
    (match nextPlan with
     | some p => (p.steps.getD p.currentStepIndex defaultPlanStep).position
     | none => ⟨0, 0, 0⟩)
  (targetType, rawPos)

/-- The environment a tick draws on: fresh random identifiers for logs,
the placed object and the knowledge entry, the clock, and the two
`Math.random()` draws of the MOVE jitter. -/
structure TickEnv where
  freshLogId : Nat → String
  objectId : String
  knowledgeId : String
  now : Nat
  randA : ℝ
  randB : ℝ

/-- Build the log entry appended by `addLog` for the k-th log of a tick. -/
def mkLog (env : TickEnv) (k : Nat) (type : LogType) (message : String) : LogEntry where
  id := env.freshLogId k
  type := type
  message := message
  timestamp := env.now

/-- Helper for `synapseLogs`, numbering the fresh log identifiers from a
given index. -/
def synapseLogsFrom (env : TickEnv) (k : Nat) : List String → List LogEntry
  | [] => []
  | st :: rest =>
    mkLog env k LogType.thinking ("[SYNAPSE]: " ++ st) :: synapseLogsFrom env (k + 1) rest

/-- The `[SYNAPSE]` thinking logs emitted for the decision's reasoning
steps (`App.tsx` lines 76-81). -/
def synapseLogs (env : TickEnv) (steps : List String) : List LogEntry :=
  synapseLogsFrom env 0 steps

/-- State changes performed before the `try` block: set the in-flight
flag, switch network status to `syncing`, raise the scanning flag and the
progress indicator (`App.tsx` lines 57-60). -/
def startTick (s : AppState) : AppState :=
  { s with isProcessing := true
           taskProgress := 10
           sim := { s.sim with networkStatus := NetworkStatus.syncing
                               isScanning := true } }

/-- The `finally` block of a tick (`App.tsx` lines 171-176): clear the
in-flight flag, reset the progress indicator, restore network status and
scanning flag, and restore the idle task label. -/
def finalizeTick (t : AppState) : AppState :=
  { t with isProcessing := false
           taskProgress := 0
           currentTask := if t.isAuto then "Streaming Neural Data..." else "Manual Standby"
           sim := { t.sim with networkStatus := NetworkStatus.uplink_active
                               isScanning := false } }

/-- The `setState` applied on a PLACE (`App.tsx` lines 108-163): advance or
clear the plan, append the new object, recompute goal, tier and complexity
from the new count, bump the learning iteration, and append a knowledge
entry unless its derived title is already present. -/
def applyPlaceState (env : TickEnv) (d : AIActionResponse) (newObj : WorldObject)
    (prev : SimulationState) : SimulationState :=
  let updatedPlan := advancePlan d.plan prev.activePlan
  let newTotal := prev.objects.length + 1
  let tier := tierOfCount newTotal
  let nextGoal := goalOfCount prev.currentGoal newTotal
  let title := deriveTitle d.learningNote
  let newKnowledge :=
    if prev.knowledgeBase.any (fun k => k.title = title) then prev.knowledgeBase
    else prev.knowledgeBase ++
      [{ id := env.knowledgeId
         title := title
         description := d.learningNote
         category := d.knowledgeCategory
         iteration := prev.learningIteration
         timestamp := env.now
         isHighlight := true }]
  { prev with objects := prev.objects ++ [newObj]
              currentGoal := nextGoal
              learningIteration := prev.learningIteration + 1
              activePlan := updatedPlan
              knowledgeBase := newKnowledge
              progression := { prev.progression with
                totalBlocks := newTotal
                settlementTier := tier
                complexityLevel := newTotal / 4 + 1 } }

/-- The object appended by a PLACE, with its vertical coordinate snapped to
the terrain elevation at the target's horizontal coordinates (`App.tsx`
lines 91 and 99-106). -/
noncomputable def placedObject (env : TickEnv) (d : AIActionResponse)
    (prevPlan : Option ConstructionPlan) : WorldObject :=
  let tt := resolveTarget d prevPlan
  { id := env.objectId
    type := tt.1
    position := ⟨tt.2.x, getTerrainHeight tt.2.x tt.2.z, tt.2.z⟩
    rotation := ⟨0, 0, 0⟩
    scale := ⟨1, 1, 1⟩
    timestamp := env.now }

/-- The PLACE branch of a tick (`App.tsx` lines 86-163): log the
deployment, move the avatar to the snapped target, raise the progress
indicator, then apply the PLACE `setState`. -/
noncomputable def placeStep (env : TickEnv) (t : AppState) (d : AIActionResponse) : AppState :=
  let newObj := placedObject env d t.sim.activePlan
  let t2 := { t with
    avatarPos := newObj.position
    taskProgress := 100
    sim := { t.sim with logs := t.sim.logs ++
      [mkLog env d.reasoningSteps.length LogType.success
        ("DATA_SYNTH_DEPLOY: " ++ newObj.type ++ " via Proxy Node")] } }
  { t2 with sim := applyPlaceState env d newObj t2.sim }

/-- The MOVE branch of a tick (`App.tsx` lines 164-168): take the decision
position or a random jitter around the avatar, snap its vertical coordinate
to the local elevation, and log the recalibration. -/
noncomputable def moveStep (env : TickEnv) (t : AppState) (d : AIActionResponse) : AppState :=
  let movePos := d.position.getD
    ⟨t.avatarPos.x + (env.randA - 0.5) * 15, 0, t.avatarPos.z + (env.randB - 0.5) * 15⟩
  { t with
    avatarPos := ⟨movePos.x, getTerrainHeight movePos.x movePos.z, movePos.z⟩
    sim := { t.sim with logs := t.sim.logs ++
      [mkLog env d.reasoningSteps.length LogType.action
        "RECALIBRATING_SECTOR: Querying for new coordinates."] } }

/-- Processing of a successfully obtained decision (`App.tsx` lines 73-168):
log the reasoning steps as thinking entries, set the task label and
progress, then branch on the action tag (a WAIT decision performs no
further state change). -/
noncomputable def applyDecision (env : TickEnv) (t : AppState) (d : AIActionResponse) : AppState :=
  let t1 := { t with
    currentTask := d.taskLabel
    taskProgress := 60
    sim := { t.sim with logs := t.sim.logs ++ synapseLogs env d.reasoningSteps } }
  match d.action with
  | ActionTag.PLACE => placeStep env t1 d
  | ActionTag.MOVE => moveStep env t1 d
  | ActionTag.WAIT => t1

/-- One simulation tick, `runSimulationStep` of `App.tsx`: a no-op when a
tick is already in flight; otherwise run the pre-`try` updates, consume the
decision outcome (an `Except.error` models a throw inside the `try` block,
answered by the catch-all connectivity log of line 170), and run the
`finally` block. -/
noncomputable def runSimulationStep (env : TickEnv) (s : AppState)
    (outcome : Except String AIActionResponse) : AppState :=
  if s.isProcessing then s
  else
    let t := startTick s
    finalizeTick
      (match outcome with
       | Except.error _ =>
         { t with sim := { t.sim with logs := t.sim.logs ++
             [mkLog env 0 LogType.error "Neural link timeout. Retrying connectivity..."] } }
       | Except.ok d => applyDecision env t d)

/-- The initial application state mounted by `App` (`App.tsx` lines 21-44),
parameterised by the mount-time clock reading. -/
def initialAppState (t0 : Nat) : AppState where
  sim :=
    { objects := []
      logs := [{ id := "1"
                 type := LogType.success
                 message := "Uplink established via apiland.yusufsamodin67.workers.dev"
                 timestamp := t0 }]
      knowledgeBase := []
      currentGoal := GOAL_SEQUENCE.getD 0 ""
      learningIteration := 0
      networkStatus := NetworkStatus.uplink_active
      activePlan := none
      isScanning := false
      progression :=
        { complexityLevel := 1
          structuresCompleted := 0
          totalBlocks := 0
          unlockedBlueprints := ["Geothermal Core", "Neural Scaling"]
          settlementTier := SettlementTier.Outpost }
      ui := { showStats := true, showKnowledge := true, showLogs := true, showPlanning := true } }
  avatarPos := ⟨0, 0, 0⟩
  isProcessing := false
  isAuto := true
  currentTask := "Standby for Neural Input..."
  taskProgress := 0

/-- States reachable from a freshly mounted app through simulation ticks,
the auto/manual toggle and the HUD visibility toggles. -/
inductive Reachable : AppState → Prop
  | init (t0 : Nat) : Reachable (initialAppState t0)
  | tick (env : TickEnv) (outcome : Except String AIActionResponse) (s : AppState) :
      Reachable s → Reachable (runSimulationStep env s outcome)
  | setAuto (b : Bool) (s : AppState) :
      Reachable s → Reachable { s with isAuto := b }
  | setUi (u : UIState) (s : AppState) :
      Reachable s → Reachable { s with sim := { s.sim with ui := u } }

/-- A placeholder world object used to read the head of an object list. -/
def defaultWorldObject : WorldObject where
  id := ""
  type := ""
  position := ⟨0, 0, 0⟩
  rotation := ⟨0, 0, 0⟩
  scale := ⟨1, 1, 1⟩
  timestamp := 0

/-- A concrete tick environment used for concrete scenario runs. -/
def env0 : TickEnv where
  freshLogId := fun _ => "log"
  objectId := "obj-1"
  knowledgeId := "kb-1"
  now := 1000
  randA := 0
  randB := 0

/-- Overwriting a step status never changes the number of steps. -/
theorem setStepStatus_length (l : List PlanStep) (n : Nat) (st : StepStatus) :
    (setStepStatus l n st).length = l.length := by
  induction l generalizing n with
  | nil => rfl
  | cons a rest ih =>
    cases n with
    | zero => rfl
    | succ m => simpa [setStepStatus] using ih m

/-- Guard case: a tick invoked while one is in flight returns the state
unchanged. -/
theorem run_guard (env : TickEnv) (s : AppState) (outcome : Except String AIActionResponse)
    (h : s.isProcessing = true) : runSimulationStep env s outcome = s := by
  simp [runSimulationStep, h]

/-- Shape of a tick whose decision outcome is an error. -/
theorem run_error_eq (env : TickEnv) (s : AppState) (e : String)
    (h : s.isProcessing = false) :
    runSimulationStep env s (Except.error e) =
      finalizeTick { startTick s with sim := { (startTick s).sim with
        logs := (startTick s).sim.logs ++
          [mkLog env 0 LogType.error "Neural link timeout. Retrying connectivity..."] } } := by
  simp [runSimulationStep, h]

/-- Shape of a tick whose decision outcome is a parsed response. -/
theorem run_ok_eq (env : TickEnv) (s : AppState) (d : AIActionResponse)
    (h : s.isProcessing = false) :
    runSimulationStep env s (Except.ok d) = finalizeTick (applyDecision env (startTick s) d) := by
  simp [runSimulationStep, h]

/-- Case analysis on one tick: either the projections that matter to the
invariants are untouched, or the outcome was a parsed PLACE decision and
the tick appended exactly the snapped object, recomputed the progression
from the new count, and appended at most one knowledge entry whose title
was not yet present. -/
theorem tick_cases (env : TickEnv) (s : AppState) (outcome : Except String AIActionResponse) :
    ((runSimulationStep env s outcome).sim.objects = s.sim.objects ∧
     (runSimulationStep env s outcome).sim.knowledgeBase = s.sim.knowledgeBase ∧
     (runSimulationStep env s outcome).sim.progression = s.sim.progression) ∨
    (∃ d : AIActionResponse, outcome = Except.ok d ∧ d.action = ActionTag.PLACE ∧
      (runSimulationStep env s outcome).sim.objects
        = s.sim.objects ++ [placedObject env d s.sim.activePlan] ∧
      (runSimulationStep env s outcome).sim.progression
        = { s.sim.progression with
            totalBlocks := s.sim.objects.length + 1
            settlementTier := tierOfCount (s.sim.objects.length + 1)
            complexityLevel := (s.sim.objects.length + 1) / 4 + 1 } ∧
      ((runSimulationStep env s outcome).sim.knowledgeBase = s.sim.knowledgeBase ∨
       ∃ k : KnowledgeEntry,
         (s.sim.knowledgeBase.any (fun e => e.title = k.title)) = false ∧
         (runSimulationStep env s outcome).sim.knowledgeBase = s.sim.knowledgeBase ++ [k])) := by
  by_cases h : s.isProcessing
  · left
    simp [run_guard env s outcome h]
  · rw [Bool.not_eq_true] at h
    cases outcome with
    | error e =>
      left
      simp [run_error_eq env s e h, finalizeTick, startTick]
    | ok d =>
      rw [run_ok_eq env s d h]
      cases ha : d.action with
      | WAIT =>
        left
        simp [applyDecision, ha, finalizeTick, startTick]
      | MOVE =>
        left
        simp [applyDecision, ha, moveStep, finalizeTick, startTick]
      | PLACE =>
        right
        refine ⟨d, rfl, ha, ?_, ?_, ?_⟩
        · simp [applyDecision, ha, placeStep, applyPlaceState, finalizeTick, startTick]
        · simp [applyDecision, ha, placeStep, applyPlaceState, finalizeTick, startTick]
        · by_cases hk : (s.sim.knowledgeBase.any
            (fun e => e.title = deriveTitle d.learningNote)) = true
          · left
            simp [applyDecision, ha, placeStep, applyPlaceState, finalizeTick, startTick, hk]
          · rw [Bool.not_eq_true] at hk
            right
            refine ⟨{ id := env.knowledgeId
                      title := deriveTitle d.learningNote
                      description := d.learningNote
                      category := d.knowledgeCategory
                      iteration := s.sim.learningIteration
                      timestamp := env.now
                      isHighlight := true }, ?_, ?_⟩
            · simpa using hk
            · simp [applyDecision, ha, placeStep, applyPlaceState, finalizeTick, startTick, hk]

/-- The inductive invariant maintained by every reachable state: placed
objects are terrain-snapped, knowledge-base titles are pairwise distinct,
and the progression counters are determined by the object count. -/
def StateInv (s : AppState) : Prop :=
  (∀ o ∈ s.sim.objects, o.position.y = getTerrainHeight o.position.x o.position.z) ∧
  s.sim.knowledgeBase.Pairwise (fun a b => a.title ≠ b.title) ∧
  s.sim.progression.totalBlocks = s.sim.objects.length ∧
  s.sim.progression.settlementTier = tierOfCount s.sim.objects.length ∧
  s.sim.progression.complexityLevel = s.sim.objects.length / 4 + 1

theorem stateInv_init (t0 : Nat) : StateInv (initialAppState t0) := by
  refine ⟨?_, ?_, ?_, ?_, ?_⟩ <;> simp [initialAppState, StateInv, tierOfCount]

theorem stateInv_tick (env : TickEnv) (s : AppState) (outcome : Except String AIActionResponse)
    (hs : StateInv s) : StateInv (runSimulationStep env s outcome) := by
  obtain ⟨hsnap, hkb, htot, htier, hcomp⟩ := hs
  rcases tick_cases env s outcome with ⟨ho, hk, hp⟩ | ⟨d, -, -, ho, hp, hk⟩
  · exact ⟨by rw [ho]; exact hsnap, by rw [hk]; exact hkb,
      by rw [hp, ho]; exact htot, by rw [hp, ho]; exact htier, by rw [hp, ho]; exact hcomp⟩
  · refine ⟨?_, ?_, ?_, ?_, ?_⟩
    · rw [ho]
      intro o hmem
      rcases List.mem_append.mp hmem with hin | hobj
      · exact hsnap o hin
      · rcases List.mem_singleton.mp hobj with rfl
        rfl
    · rcases hk with hk | ⟨k, hnew, hk⟩
      · rw [hk]; exact hkb
      · rw [hk, List.pairwise_append]
        refine ⟨hkb, List.pairwise_singleton _ _, ?_⟩
        intro a ha b hb
        rcases List.mem_singleton.mp hb with rfl
        intro hab
        have : s.sim.knowledgeBase.any (fun e => e.title = b.title) = true := by
          rw [List.any_eq_true]
          exact ⟨a, ha, by simp [hab]⟩
        rw [hnew] at this
        exact Bool.false_ne_true this
    · rw [hp, ho]; simp
    · rw [hp, ho]; simp
    · rw [hp, ho]; simp

theorem stateInv_reachable (s : AppState) (h : Reachable s) : StateInv s := by
  induction h with
  | init t0 => exact stateInv_init t0
  | tick env outcome s hs ih => exact stateInv_tick env s outcome ih
  | setAuto b s hs ih => exact ih
  | setUi u s hs ih =>
    obtain ⟨h1, h2, h3, h4, h5⟩ := ih
    exact ⟨h1, h2, h3, h4, h5⟩

/-- The concrete PLACE decision of the spec's end-to-end scenario: a
`modular_unit` at raw position `[2, 0, 3]`. -/
def dPlaceC3 : AIActionResponse where
  action := ActionTag.PLACE
  objectType := some "modular_unit"
  position := some ⟨2, 0, 3⟩
  reason := "Deploy a habitat unit"
  reasoningSteps := []
  learningNote := "Terrain Analysis: sector is stable"
  knowledgeCategory := "Environment"
  taskLabel := "Deploying modular unit"
  plan := none

/-- Pairwise-distinct titles bound the number of entries bearing any one
title by one. -/
theorem filter_title_length_le_one (l : List KnowledgeEntry) (t : String)
    (h : l.Pairwise (fun a b => a.title ≠ b.title)) :
    (l.filter (fun k => k.title = t)).length ≤ 1 := by
  have hsub : (l.filter (fun k => k.title = t)).Pairwise (fun a b => a.title ≠ b.title) :=
    List.Pairwise.sublist (List.filter_sublist l) h
  cases hf : l.filter (fun k => k.title = t) with
  | nil => simp
  | cons a tail =>
    cases tail with
    | nil => simp
    | cons b rest =>
      exfalso
      rw [hf] at hsub
      have hab : a.title ≠ b.title := (List.pairwise_cons.mp hsub).1 b (by simp)
      have ha : a ∈ l.filter (fun k => k.title = t) := by rw [hf]; simp
      have hb : b ∈ l.filter (fun k => k.title = t) := by rw [hf]; simp
      have ha2 := (List.mem_filter.mp ha).2
      have hb2 := (List.mem_filter.mp hb).2
      simp only [decide_eq_true_eq] at ha2 hb2
      exact hab (ha2.trans hb2.symm)

/-- C1: terrain-snap invariant.  In every reachable state, every stored
object's vertical coordinate equals the terrain sampler's elevation at the
object's horizontal coordinates; in particular every PLACE outcome appends
such an object. -/
theorem terrain_snap_invariant (s : AppState) (h : Reachable s) :
    ∀ o ∈ s.sim.objects, o.position.y = getTerrainHeight o.position.x o.position.z :=
  (stateInv_reachable s h).1

/-- Witness for C1 on a concrete reachable state holding one placed object. -/
theorem terrain_snap_invariant_witness :
    ((runSimulationStep env0 (initialAppState 0) (Except.ok dPlaceC3)).sim.objects.getD 0
        defaultWorldObject).position.y
      = getTerrainHeight
          ((runSimulationStep env0 (initialAppState 0) (Except.ok dPlaceC3)).sim.objects.getD 0
              defaultWorldObject).position.x
          ((runSimulationStep env0 (initialAppState 0) (Except.ok dPlaceC3)).sim.objects.getD 0
              defaultWorldObject).position.z := by
  have h := terrain_snap_invariant (runSimulationStep env0 (initialAppState 0) (Except.ok dPlaceC3))
    (Reachable.tick env0 (Except.ok dPlaceC3) (initialAppState 0) (Reachable.init 0))
  have hobj : (runSimulationStep env0 (initialAppState 0) (Except.ok dPlaceC3)).sim.objects
      = [placedObject env0 dPlaceC3 none] := by
    rw [run_ok_eq env0 (initialAppState 0) dPlaceC3 rfl]
    simp [applyDecision, dPlaceC3, placeStep, applyPlaceState, finalizeTick, startTick,
      initialAppState, synapseLogs]
  rw [hobj] at h ⊢
  exact h (placedObject env0 dPlaceC3 none) (by simp)

/-- The tier step function as the claim states it, with `Colony` already
above a count of 3; written from the spec's words for comparison with the
`tierOfCount` transcribed from the code. -/
def tierOfCountClaimed (n : Nat) : SettlementTier :=
  if n > 15 then SettlementTier.Citadel
  else if n > 8 then SettlementTier.Settlement
  else if n > 3 then SettlementTier.Colony
  else SettlementTier.Outpost

/-- Counterexample for C4: at a count of 4 the code keeps the tier at
`Outpost` (its `Colony` threshold is a count above 4), while the claim's
threshold table (`> 3`) demands `Colony`; concretely, the state reached by
four PLACE ticks holds 4 objects and still sits at `Outpost`. -/
theorem tier_threshold_counterexample :
    tierOfCount 4 = SettlementTier.Outpost ∧
    tierOfCountClaimed 4 = SettlementTier.Colony ∧
    tierOfCount 4 ≠ tierOfCountClaimed 4 ∧
    (runSimulationStep env0 (runSimulationStep env0 (runSimulationStep env0
        (runSimulationStep env0 (initialAppState 0) (Except.ok dPlaceC3))
        (Except.ok dPlaceC3)) (Except.ok dPlaceC3)) (Except.ok dPlaceC3)).sim.objects.length
      = 4 ∧
    (runSimulationStep env0 (runSimulationStep env0 (runSimulationStep env0
        (runSimulationStep env0 (initialAppState 0) (Except.ok dPlaceC3))
        (Except.ok dPlaceC3)) (Except.ok dPlaceC3)) (Except.ok dPlaceC3)).sim.progression.settlementTier
      = SettlementTier.Outpost := by
  refine ⟨rfl, rfl, by decide, ?_, ?_⟩ <;>
  simp [runSimulationStep, applyDecision, dPlaceC3, placeStep, applyPlaceState,
    finalizeTick, startTick, initialAppState, tierOfCount, synapseLogs, synapseLogsFrom,
    mkLog, placedObject, resolveTarget, advancePlan, deriveTitle, goalOfCount, env0]

/-- C4 (amended): the settlement tier of any reachable state is the pure
step function `tierOfCount` (thresholds strictly above 4, 8 and 15) of the
object count alone, so any two reachable states with equal counts — in
whatever order their objects were fed in — carry the same tier. -/
theorem tier_pure_function_of_count (s t : AppState) (hs : Reachable s) (ht : Reachable t) :
    s.sim.progression.settlementTier = tierOfCount s.sim.objects.length ∧
    (s.sim.objects.length = t.sim.objects.length →
      s.sim.progression.settlementTier = t.sim.progression.settlementTier) := by
  have h1 := (stateInv_reachable s hs).2.2.2.1
  have h2 := (stateInv_reachable t ht).2.2.2.1
  exact ⟨h1, fun hl => by rw [h1, h2, hl]⟩

/-- Witness for C4 on two concrete reachable states. -/
theorem tier_pure_function_of_count_witness :
    (initialAppState 0).sim.progression.settlementTier
        = tierOfCount (initialAppState 0).sim.objects.length ∧
    (initialAppState 0).sim.progression.settlementTier
        = (initialAppState 7).sim.progression.settlementTier := by
  have h := tier_pure_function_of_count (initialAppState 0) (initialAppState 7)
    (Reachable.init 0) (Reachable.init 7)
  exact ⟨h.1, h.2 rfl⟩

/-- C5: knowledge-base deduplication.  Every reachable knowledge base has
pairwise-distinct titles, so in particular no title is ever carried by more
than one entry, however many PLACE ticks derived it. -/
theorem knowledge_dedup (s : AppState) (h : Reachable s) :
    s.sim.knowledgeBase.Pairwise (fun a b => a.title ≠ b.title) ∧
    ∀ t : String, (s.sim.knowledgeBase.filter (fun k => k.title = t)).length ≤ 1 := by
  have hp := (stateInv_reachable s h).2.1
  exact ⟨hp, fun t => filter_title_length_le_one s.sim.knowledgeBase t hp⟩

/-- Witness for C5 on a concrete reachable state. -/
theorem knowledge_dedup_witness :
    (initialAppState 0).sim.knowledgeBase.Pairwise (fun a b => a.title ≠ b.title) ∧
    ((initialAppState 0).sim.knowledgeBase.filter
        (fun k => k.title = "Neural Synthesis")).length ≤ 1 := by
  have h := knowledge_dedup (initialAppState 0) (Reachable.init 0)
  exact ⟨h.1, h.2 "Neural Synthesis"⟩

/-- C6: single-flight guard.  A tick invoked while the in-flight flag is
set returns immediately with the state unchanged: no object, log entry or
any other change is made, so a second tick cannot interleave with one in
flight. -/
theorem single_flight (env : TickEnv) (s : AppState) (outcome : Except String AIActionResponse)
    (h : s.isProcessing = true) : runSimulationStep env s outcome = s := by
  unfold runSimulationStep
  rw [h]
  rfl

/-- Witness for C6 on a concrete in-flight state. -/
theorem single_flight_witness :
    runSimulationStep env0 { initialAppState 0 with isProcessing := true }
        (Except.ok dPlaceC3)
      = { initialAppState 0 with isProcessing := true } :=
  single_flight env0 { initialAppState 0 with isProcessing := true } (Except.ok dPlaceC3) rfl

/-- C9: the terrain sampler computes exactly
`sin(x·0.2)·cos(z·0.2)·1.2` and, being a pure total function of its two
real arguments, returns the same value for repeated calls on identical
inputs. -/
theorem terrain_sampler_contract (x z : ℝ) :
    getTerrainHeight x z = Real.sin (x * 0.2) * Real.cos (z * 0.2) * 1.2 ∧
    ∀ x2 z2 : ℝ, x2 = x → z2 = z → getTerrainHeight x2 z2 = getTerrainHeight x z :=
  ⟨rfl, fun x2 z2 hx hz => by rw [hx, hz]⟩

/-- Witness for C9 at the concrete input (2, 3). -/
theorem terrain_sampler_contract_witness :
    getTerrainHeight 2 3 = Real.sin (2 * 0.2) * Real.cos (3 * 0.2) * 1.2 ∧
    getTerrainHeight 2 3 = getTerrainHeight 2 3 :=
  ⟨(terrain_sampler_contract 2 3).1, (terrain_sampler_contract 2 3).2 2 3 rfl rfl⟩

/-- C10: in every reachable state `totalBlocks` equals the length of the
objects list and `complexityLevel` equals `count / 4 + 1`; moreover any
single tick either leaves both untouched or increments both by exactly
one, so `totalBlocks` is monotonically non-decreasing. -/
theorem total_blocks_tracks_objects (s : AppState) (h : Reachable s) :
    s.sim.progression.totalBlocks = s.sim.objects.length ∧
    s.sim.progression.complexityLevel = s.sim.objects.length / 4 + 1 ∧
    ∀ (env : TickEnv) (outcome : Except String AIActionResponse),
      ((runSimulationStep env s outcome).sim.progression.totalBlocks
          = s.sim.progression.totalBlocks ∧
       (runSimulationStep env s outcome).sim.objects.length = s.sim.objects.length) ∨
      ((runSimulationStep env s outcome).sim.progression.totalBlocks
          = s.sim.progression.totalBlocks + 1 ∧
       (runSimulationStep env s outcome).sim.objects.length = s.sim.objects.length + 1) := by
  have hi := stateInv_reachable s h
  refine ⟨hi.2.2.1, hi.2.2.2.2, ?_⟩
  intro env outcome
  rcases tick_cases env s outcome with ⟨ho, -, hp⟩ | ⟨d, -, -, ho, hp, -⟩
  · left
    rw [hp, ho]
    exact ⟨rfl, rfl⟩
  · right
    rw [hp, ho]
    refine ⟨by simp [hi.2.2.1], by simp⟩

/-- Witness for C10 on a concrete reachable state and tick. -/
theorem total_blocks_tracks_objects_witness :
    (initialAppState 0).sim.progression.totalBlocks = (initialAppState 0).sim.objects.length ∧
    (((runSimulationStep env0 (initialAppState 0) (Except.ok dPlaceC3)).sim.progression.totalBlocks
          = (initialAppState 0).sim.progression.totalBlocks ∧
      (runSimulationStep env0 (initialAppState 0) (Except.ok dPlaceC3)).sim.objects.length
          = (initialAppState 0).sim.objects.length) ∨
     ((runSimulationStep env0 (initialAppState 0) (Except.ok dPlaceC3)).sim.progression.totalBlocks
          = (initialAppState 0).sim.progression.totalBlocks + 1 ∧
      (runSimulationStep env0 (initialAppState 0) (Except.ok dPlaceC3)).sim.objects.length
          = (initialAppState 0).sim.objects.length + 1)) := by
  have h := total_blocks_tracks_objects (initialAppState 0) (Reachable.init 0)
  exact ⟨h.1, h.2.2 env0 (Except.ok dPlaceC3)⟩

/-- Numerical lower bound on the elevation at (2, 3):
`sin(0.4)·cos(0.6)·1.2` exceeds `3/10`, so it is nowhere near `0.299`. -/
theorem terrain_2_3_gt : 3 / 10 < getTerrainHeight 2 3 := by
  have e1 : (2 : ℝ) * 0.2 = 0.4 := by norm_num
  have e2 : (3 : ℝ) * 0.2 = 0.6 := by norm_num
  have hs : (0.384 : ℝ) < Real.sin 0.4 := by
    have h := Real.sin_gt_sub_cube (x := 0.4) (by norm_num) (by norm_num)
    have h2 : (0.4 : ℝ) - 0.4 ^ 3 / 4 = 0.384 := by norm_num
    linarith
  have hc : (0.82 : ℝ) < Real.cos 0.6 := by
    have h := Real.one_sub_sq_div_two_lt_cos (x := (0.6 : ℝ)) (by norm_num)
    have h2 : (1 : ℝ) - 0.6 ^ 2 / 2 = 0.82 := by norm_num
    linarith
  have hs0 : (0 : ℝ) < Real.sin 0.4 := by linarith
  have hc0 : (0 : ℝ) < Real.cos 0.6 := by linarith
  rw [getTerrainHeight, e1, e2]
  nlinarith [hs, hc, hs0, hc0]

/-- The objects list produced by the end-to-end scenario run. -/
theorem scenario_objects_eq :
    (runSimulationStep env0 (initialAppState 0) (Except.ok dPlaceC3)).sim.objects
      = [placedObject env0 dPlaceC3 none] := by
  rw [run_ok_eq env0 (initialAppState 0) dPlaceC3 rfl]
  simp [applyDecision, dPlaceC3, placeStep, applyPlaceState, finalizeTick, startTick,
    initialAppState]

/-- Counterexample for C3: the object stored by the end-to-end scenario
does not sit at height `0.299`; its elevation `sin(0.4)·cos(0.6)·1.2` lies
strictly above `3/10`. -/
theorem end_to_end_counterexample :
    ((runSimulationStep env0 (initialAppState 0) (Except.ok dPlaceC3)).sim.objects.getD 0
        defaultWorldObject).position.y ≠ 299 / 1000 := by
  rw [scenario_objects_eq]
  simp only [List.getD_cons_zero]
  have hy : (placedObject env0 dPlaceC3 none).position.y = getTerrainHeight 2 3 := by
    simp [placedObject, resolveTarget, dPlaceC3]
  rw [hy]
  have h := terrain_2_3_gt
  intro hEq
  rw [hEq] at h
  norm_num at h

/-- C3 (amended): starting from an empty world, the PLACE decision for a
`modular_unit` at raw position `[2, 0, 3]` stores one object of that type
at `[2, sin(0.4)·cos(0.6)·1.2, 3]` — a height strictly above `3/10`
(numerically about `0.386`, not `0.299`) — the total object count becomes
1, and the settlement tier stays `Outpost`. -/
theorem end_to_end_place_scenario :
    (runSimulationStep env0 (initialAppState 0) (Except.ok dPlaceC3)).sim.objects.length = 1 ∧
    ((runSimulationStep env0 (initialAppState 0) (Except.ok dPlaceC3)).sim.objects.getD 0
        defaultWorldObject).type = "modular_unit" ∧
    ((runSimulationStep env0 (initialAppState 0) (Except.ok dPlaceC3)).sim.objects.getD 0
        defaultWorldObject).position.x = 2 ∧
    ((runSimulationStep env0 (initialAppState 0) (Except.ok dPlaceC3)).sim.objects.getD 0
        defaultWorldObject).position.z = 3 ∧
    ((runSimulationStep env0 (initialAppState 0) (Except.ok dPlaceC3)).sim.objects.getD 0
        defaultWorldObject).position.y = Real.sin (2 * 0.2) * Real.cos (3 * 0.2) * 1.2 ∧
    3 / 10 < ((runSimulationStep env0 (initialAppState 0) (Except.ok dPlaceC3)).sim.objects.getD 0
        defaultWorldObject).position.y ∧
    (runSimulationStep env0 (initialAppState 0) (Except.ok dPlaceC3)).sim.progression.totalBlocks
        = 1 ∧
    (runSimulationStep env0 (initialAppState 0) (Except.ok dPlaceC3)).sim.progression.settlementTier
        = SettlementTier.Outpost := by
  have hy : (placedObject env0 dPlaceC3 none).position.y = getTerrainHeight 2 3 := by
    simp [placedObject, resolveTarget, dPlaceC3]
  refine ⟨?_, ?_, ?_, ?_, ?_, ?_, ?_, ?_⟩
  · rw [scenario_objects_eq]; rfl
  · rw [scenario_objects_eq]
    simp [placedObject, resolveTarget, dPlaceC3]
  · rw [scenario_objects_eq]
    simp [placedObject, resolveTarget, dPlaceC3]
  · rw [scenario_objects_eq]
    simp [placedObject, resolveTarget, dPlaceC3]
  · rw [scenario_objects_eq]
    simp only [List.getD_cons_zero]
    rw [hy]
    rfl
  · rw [scenario_objects_eq]
    simp only [List.getD_cons_zero]
    rw [hy]
    exact terrain_2_3_gt
  · rw [run_ok_eq env0 (initialAppState 0) dPlaceC3 rfl]
    simp [applyDecision, dPlaceC3, placeStep, applyPlaceState, finalizeTick, startTick,
      initialAppState]
  · rw [run_ok_eq env0 (initialAppState 0) dPlaceC3 rfl]
    simp [applyDecision, dPlaceC3, placeStep, applyPlaceState, finalizeTick, startTick,
      initialAppState, tierOfCount]

/-- Counterexample for C2: forcing the decision transport to fail and
running a tick on the fallback leaves the object list empty but appends
three `thinking` log entries (the fallback's reasoning steps) — not
exactly one entry, and no log entry of a WAIT type exists in the log
vocabulary at all. -/
theorem fallback_log_counterexample :
    (runSimulationStep env0 (initialAppState 0)
        (Except.ok (decideNextAction (Except.error "transport failure")))).sim.objects = [] ∧
    ((runSimulationStep env0 (initialAppState 0)
        (Except.ok (decideNextAction (Except.error "transport failure")))).sim.logs).map
          LogEntry.type
      = [LogType.success, LogType.thinking, LogType.thinking, LogType.thinking] := by
  constructor
  · rw [run_ok_eq env0 (initialAppState 0) _ rfl]
    simp [decideNextAction, fallbackResponse, applyDecision, finalizeTick, startTick,
      initialAppState]
  · rw [run_ok_eq env0 (initialAppState 0) _ rfl]
    simp [decideNextAction, fallbackResponse, applyDecision, finalizeTick, startTick,
      initialAppState, synapseLogs, synapseLogsFrom, mkLog]

/-- C2 (amended): any transport or parsing error is caught inside
`decideNextAction` and converted into a WAIT response with the fixed error
reason; running a tick on that fallback leaves the objects list unchanged
and appends exactly the fallback's three reasoning-step log entries, all of
the `thinking` type (the log vocabulary has no WAIT type). -/
theorem decision_fallback (e : String) (env : TickEnv) (s : AppState)
    (h : s.isProcessing = false) :
    (decideNextAction (Except.error e)).action = ActionTag.WAIT ∧
    (decideNextAction (Except.error e)).reason
        = "Neural buffer overflow. Recalibrating spatial constraints." ∧
    (runSimulationStep env s (Except.ok (decideNextAction (Except.error e)))).sim.objects
        = s.sim.objects ∧
    (runSimulationStep env s (Except.ok (decideNextAction (Except.error e)))).sim.logs
        = s.sim.logs ++ synapseLogs env fallbackResponse.reasoningSteps ∧
    (synapseLogs env fallbackResponse.reasoningSteps).map LogEntry.type
        = [LogType.thinking, LogType.thinking, LogType.thinking] := by
  refine ⟨rfl, rfl, ?_, ?_, ?_⟩
  · rw [run_ok_eq env s _ h]
    simp [decideNextAction, fallbackResponse, applyDecision, finalizeTick, startTick]
  · rw [run_ok_eq env s _ h]
    simp [decideNextAction, fallbackResponse, applyDecision, finalizeTick, startTick]
  · simp [synapseLogs, synapseLogsFrom, fallbackResponse, mkLog]

/-- Witness for C2's amended theorem on a concrete failing transport. -/
theorem decision_fallback_witness :
    (decideNextAction (Except.error "transport failure")).action = ActionTag.WAIT ∧
    (runSimulationStep env0 (initialAppState 0)
        (Except.ok (decideNextAction (Except.error "transport failure")))).sim.objects
      = (initialAppState 0).sim.objects := by
  have h := decision_fallback "transport failure" env0 (initialAppState 0) rfl
  exact ⟨h.1, h.2.2.1⟩

/-- The active plan after a PLACE tick is the result of `advancePlan` on
the decision's plan and the previous active plan. -/
theorem activePlan_after_place (env : TickEnv) (s : AppState) (d : AIActionResponse)
    (h : s.isProcessing = false) (ha : d.action = ActionTag.PLACE) :
    (runSimulationStep env s (Except.ok d)).sim.activePlan
      = advancePlan d.plan s.sim.activePlan := by
  rw [run_ok_eq env s d h]
  simp [applyDecision, ha, placeStep, applyPlaceState, finalizeTick, startTick]

/-- A fresh two-step construction plan sitting at its first step. -/
def planNew : ConstructionPlan where
  objective := "Assemble habitat corridor"
  steps :=
    [ { label := "Place first wall", type := "wall", position := ⟨0, 0, 0⟩
        status := StepStatus.active }
    , { label := "Place second wall", type := "wall", position := ⟨1, 0, 1⟩
        status := StepStatus.pending } ]
  currentStepIndex := 0
  planId := "plan-1"

/-- A PLACE decision that supplies the brand-new plan `planNew`. -/
def dNewPlan : AIActionResponse where
  action := ActionTag.PLACE
  objectType := some "wall"
  position := some ⟨0, 0, 0⟩
  reason := "Start the corridor plan"
  reasoningSteps := []
  learningNote := "Plan Synthesis: two-wall corridor"
  knowledgeCategory := "Architecture"
  taskLabel := "Executing plan step"
  plan := some planNew

/-- Counterexample for C7: applying a PLACE whose decision carries the
brand-new two-step plan `planNew` leaves the cursor at step 0 — the step
is re-marked `active`, not `completed`, and the cursor does not advance to
the next step as the claim demands. -/
theorem plan_cursor_counterexample :
    ((runSimulationStep env0 (initialAppState 0) (Except.ok dNewPlan)).sim.activePlan.map
        ConstructionPlan.currentStepIndex) = some 0 ∧
    ((runSimulationStep env0 (initialAppState 0) (Except.ok dNewPlan)).sim.activePlan.map
        (fun p => p.steps.map PlanStep.status))
      = some [StepStatus.active, StepStatus.pending] ∧
    ((runSimulationStep env0 (initialAppState 0) (Except.ok dNewPlan)).sim.activePlan.map
        ConstructionPlan.currentStepIndex) ≠ some (planNew.currentStepIndex + 1) := by
  have hp : (runSimulationStep env0 (initialAppState 0) (Except.ok dNewPlan)).sim.activePlan
      = advancePlan dNewPlan.plan none := by
    rw [activePlan_after_place env0 (initialAppState 0) dNewPlan rfl rfl]
    rfl
  refine ⟨?_, ?_, ?_⟩ <;>
    rw [hp] <;>
    simp [advancePlan, dNewPlan, planNew, setStepStatus, Option.orElse]

/-- C7 (amended): a PLACE with no plan in the decision advances a
pre-existing active plan — the current step is marked `completed`, the
next step becomes `active` and the cursor moves to it, or the plan is
cleared when the completed step was the last; a PLACE whose decision
carries a brand-new plan instead installs that plan with its cursor
unchanged and its current step left `active` (marked `completed` and then
immediately overwritten). -/
theorem plan_cursor_advance (env : TickEnv) (s : AppState) (d : AIActionResponse)
    (h : s.isProcessing = false) (ha : d.action = ActionTag.PLACE) :
    (∀ p : ConstructionPlan, d.plan = none → s.sim.activePlan = some p →
      (p.currentStepIndex + 1 < p.steps.length →
        (runSimulationStep env s (Except.ok d)).sim.activePlan
          = some { p with
              steps := setStepStatus
                (setStepStatus p.steps p.currentStepIndex StepStatus.completed)
                (p.currentStepIndex + 1) StepStatus.active
              currentStepIndex := p.currentStepIndex + 1 }) ∧
      (p.currentStepIndex + 1 = p.steps.length →
        (runSimulationStep env s (Except.ok d)).sim.activePlan = none)) ∧
    (∀ np : ConstructionPlan, d.plan = some np → np.currentStepIndex < np.steps.length →
      (runSimulationStep env s (Except.ok d)).sim.activePlan
        = some { np with
            steps := setStepStatus
              (setStepStatus np.steps np.currentStepIndex StepStatus.completed)
              np.currentStepIndex StepStatus.active
            currentStepIndex := np.currentStepIndex }) := by
  constructor
  · intro p hd hs
    constructor
    · intro hlt
      rw [activePlan_after_place env s d h ha, hd, hs]
      simp [advancePlan, Option.orElse, setStepStatus_length, hlt]
    · intro hlast
      rw [activePlan_after_place env s d h ha, hd, hs]
      simp [advancePlan, Option.orElse, setStepStatus_length, hlast]
  · intro np hd hlt
    rw [activePlan_after_place env s d h ha, hd]
    simp [advancePlan, Option.orElse, setStepStatus_length, hlt]

/-- Witness for C7's amended theorem on the concrete new-plan decision. -/
theorem plan_cursor_advance_witness :
    (runSimulationStep env0 (initialAppState 0) (Except.ok dNewPlan)).sim.activePlan
      = some { planNew with
          steps := setStepStatus
            (setStepStatus planNew.steps planNew.currentStepIndex StepStatus.completed)
            planNew.currentStepIndex StepStatus.active
          currentStepIndex := planNew.currentStepIndex } :=
  (plan_cursor_advance env0 (initialAppState 0) dNewPlan rfl rfl).2 planNew rfl
    (by simp [planNew])

/-- Processing a decision never touches the auto/manual toggle. -/
theorem applyDecision_isAuto (env : TickEnv) (t : AppState) (d : AIActionResponse) :
    (applyDecision env t d).isAuto = t.isAuto := by
  unfold applyDecision
  cases d.action <;> simp [placeStep, moveStep]

/-- C8: error atomicity and cleanup of the simulation loop.  If the tick's
orchestration throws, a single generic connectivity-error log entry is
appended and the objects, knowledge base, plan, progression and goal are
all left unchanged; and every tick that passes the guard — success or
failure — ends with the in-flight flag cleared, the progress indicator at
zero, and the idle status label restored. -/
theorem tick_error_atomicity (env : TickEnv) (s : AppState) (h : s.isProcessing = false) :
    (∀ e : String,
      (runSimulationStep env s (Except.error e)).sim.objects = s.sim.objects ∧
      (runSimulationStep env s (Except.error e)).sim.knowledgeBase = s.sim.knowledgeBase ∧
      (runSimulationStep env s (Except.error e)).sim.activePlan = s.sim.activePlan ∧
      (runSimulationStep env s (Except.error e)).sim.progression = s.sim.progression ∧
      (runSimulationStep env s (Except.error e)).sim.currentGoal = s.sim.currentGoal ∧
      (runSimulationStep env s (Except.error e)).sim.logs
        = s.sim.logs ++
          [mkLog env 0 LogType.error "Neural link timeout. Retrying connectivity..."]) ∧
    (∀ outcome : Except String AIActionResponse,
      (runSimulationStep env s outcome).isProcessing = false ∧
      (runSimulationStep env s outcome).taskProgress = 0 ∧
      (runSimulationStep env s outcome).currentTask
        = (if s.isAuto then "Streaming Neural Data..." else "Manual Standby")) := by
  constructor
  · intro e
    rw [run_error_eq env s e h]
    simp [finalizeTick, startTick]
  · intro outcome
    cases outcome with
    | error e =>
      rw [run_error_eq env s e h]
      simp [finalizeTick, startTick]
    | ok d =>
      rw [run_ok_eq env s d h]
      refine ⟨rfl, rfl, ?_⟩
      show (if (applyDecision env (startTick s) d).isAuto then _ else _) = _
      rw [applyDecision_isAuto]
      rfl

/-- Witness for C8 on a concrete failing tick. -/
theorem tick_error_atomicity_witness :
    (runSimulationStep env0 (initialAppState 0) (Except.error "boom")).sim.objects
        = (initialAppState 0).sim.objects ∧
    (runSimulationStep env0 (initialAppState 0) (Except.error "boom")).isProcessing = false ∧
    (runSimulationStep env0 (initialAppState 0) (Except.error "boom")).taskProgress = 0 := by
  have h := tick_error_atomicity env0 (initialAppState 0) rfl
  exact ⟨(h.1 "boom").1, (h.2 (Except.error "boom")).1, (h.2 (Except.error "boom")).2.1⟩

end Worl
